import Mathlib

/-
Shallow embedding of the ledger core of the test-repo-golang-support
repository, together with theorems settling the specification claims.

Source files embedded:
  internal/core/domain/valueobjects/money.go
  internal/core/domain/entities/account.go
  internal/core/domain/entities/transaction.go
  in-memory repositories (AccountRepositoryImpl, TransactionRepositoryImpl)
  internal/auth/session.go            (AccountService.CreateAccount, generateAccountID)
  internal/core/application/services/transaction_service.go

Monetary amounts (Go float64) are modelled as rationals; no claim concerns
floating-point rounding.  time.Now() is modelled by an explicit clock
parameter `now : Time`.  Go maps are modelled as association lists with
upsert-by-key insertion; Go returns `(value, error)` pairs, modelled by
`Except String` carrying the exact error strings of the source.
-/

namespace Bank

/-- Equality of Go-style (value, error) results is decidable. -/
instance {ε α : Type} [DecidableEq ε] [DecidableEq α] : DecidableEq (Except ε α) := fun a b =>
  match a, b with
  | Except.error e, Except.error f =>
    if h : e = f then isTrue (h ▸ rfl)
    else isFalse (fun hh => h (by injection hh))
  | Except.error _, Except.ok _ => isFalse (fun hh => Except.noConfusion hh)
  | Except.ok _, Except.error _ => isFalse (fun hh => Except.noConfusion hh)
  | Except.ok x, Except.ok y =>
    if h : x = y then isTrue (h ▸ rfl)
    else isFalse (fun hh => h (by injection hh))

/-- Clock values standing in for Go time.Time; calls receive the current
instant explicitly. -/
abbrev Time := Nat

/-- Currency is a string type in the Go source (`type Currency string`). -/
abbrev Currency := String

/-- valueobjects.Money: an amount paired with a currency code. -/
structure Money where
  Amount : ℚ
  Currency : Currency
deriving DecidableEq

/-- valueobjects.NewMoney. -/
def NewMoney (amount : ℚ) (currency : Currency) : Money :=
  { Amount := amount, Currency := currency }

/-- Money.Add: errors on currency mismatch, else returns the sum with the
receiver's currency.  Go returns `(Money{}, error)` on failure. -/
def Money.Add (m other : Money) : Except String Money :=
  if m.Currency ≠ other.Currency then
    Except.error "currency mismatch"
  else
    Except.ok { Amount := m.Amount + other.Amount, Currency := m.Currency }

/-- Money.Subtract: errors on currency mismatch, else returns the
difference with the receiver's currency. -/
def Money.Subtract (m other : Money) : Except String Money :=
  if m.Currency ≠ other.Currency then
    Except.error "currency mismatch"
  else
    Except.ok { Amount := m.Amount - other.Amount, Currency := m.Currency }

/-- Money.IsPositive: `m.Amount > 0`. -/
def Money.IsPositive (m : Money) : Bool :=
  decide (m.Amount > 0)

/-- Money.IsZero: `m.Amount == 0`. -/
def Money.IsZero (m : Money) : Bool :=
  decide (m.Amount = 0)

/-- Money.Multiply. -/
def Money.Multiply (m : Money) (factor : ℚ) : Money :=
  { Amount := m.Amount * factor, Currency := m.Currency }

/-- entities.AccountStatus. -/
inductive AccountStatus where
  | active
  | suspended
  | closed
deriving DecidableEq

/-- entities.AccountType. -/
inductive AccountType where
  | personal
  | business
  | enterprise
deriving DecidableEq

/-- entities.Account. -/
structure Account where
  ID : String
  OwnerID : String
  Email : String
  AccountType : AccountType
  Status : AccountStatus
  Balance : ℚ
  CreatedAt : Time
  UpdatedAt : Time
deriving DecidableEq

/-- entities.NewAccount: status Active, balance zero, both timestamps now. -/
def NewAccount (now : Time) (id ownerID email : String) (accountType : AccountType) : Account :=
  { ID := id, OwnerID := ownerID, Email := email, AccountType := accountType,
    Status := AccountStatus.active, Balance := 0, CreatedAt := now, UpdatedAt := now }

/-- Account.IsActive (value receiver). -/
def Account.IsActive (a : Account) : Bool :=
  decide (a.Status = AccountStatus.active)

/-- Account.GetBalance (value receiver). -/
def Account.GetBalance (a : Account) : ℚ :=
  a.Balance

/-- Account.UpdateBalance (pointer receiver): unconditional overwrite,
stamps UpdatedAt. -/
def Account.UpdateBalance (now : Time) (a : Account) (amount : ℚ) : Account :=
  { a with Balance := amount, UpdatedAt := now }

/-- Account.Suspend (pointer receiver). -/
def Account.Suspend (now : Time) (a : Account) : Account :=
  { a with Status := AccountStatus.suspended, UpdatedAt := now }

/-- Account.Activate (pointer receiver): sets status Active
unconditionally, whatever the current status. -/
def Account.Activate (now : Time) (a : Account) : Account :=
  { a with Status := AccountStatus.active, UpdatedAt := now }

/-- entities.TransactionType. -/
inductive TransactionType where
  | deposit
  | withdrawal
  | transfer
deriving DecidableEq

/-- entities.TransactionStatus. -/
inductive TransactionStatus where
  | pending
  | completed
  | failed
deriving DecidableEq

/-- entities.Transaction.  The Go field `Type` is rendered `TxType`
(`Type` is a Lean keyword); `ProcessedAt *time.Time` is an `Option Time`
(nil pointer = none). -/
structure Transaction where
  ID : String
  AccountID : String
  TxType : TransactionType
  Status : TransactionStatus
  Amount : ℚ
  Description : String
  SourceAccountID : String
  TargetAccountID : String
  CreatedAt : Time
  ProcessedAt : Option Time
deriving DecidableEq

/-- entities.NewTransaction: status Pending, ProcessedAt nil, CreatedAt
now; Description, SourceAccountID, TargetAccountID zero-valued. -/
def NewTransaction (now : Time) (id accountID : String) (txType : TransactionType) (amount : ℚ) : Transaction :=
  { ID := id, AccountID := accountID, TxType := txType,
    Status := TransactionStatus.pending, Amount := amount, Description := "",
    SourceAccountID := "", TargetAccountID := "", CreatedAt := now, ProcessedAt := none }

/-- Transaction.IsPending (value receiver). -/
def Transaction.IsPending (t : Transaction) : Bool :=
  decide (t.Status = TransactionStatus.pending)

/-- Transaction.IsCompleted (value receiver). -/
def Transaction.IsCompleted (t : Transaction) : Bool :=
  decide (t.Status = TransactionStatus.completed)

/-- Transaction.Complete (pointer receiver): unconditionally sets status
Completed and overwrites ProcessedAt with the current instant. -/
def Transaction.Complete (now : Time) (t : Transaction) : Transaction :=
  { t with Status := TransactionStatus.completed, ProcessedAt := some now }

/-- Transaction.Fail (pointer receiver): unconditionally sets status
Failed and overwrites ProcessedAt with the current instant. -/
def Transaction.Fail (now : Time) (t : Transaction) : Transaction :=
  { t with Status := TransactionStatus.failed, ProcessedAt := some now }

/-- Lookup in an association-list model of a Go map. -/
def findMap {α : Type} (m : List (String × α)) (k : String) : Option α :=
  match m with
  | [] => none
  | (k0, v) :: rest => if k0 = k then some v else findMap rest k

/-- Upsert in an association-list model of a Go map (`m[k] = v`). -/
def insertMap {α : Type} (m : List (String × α)) (k : String) (v : α) : List (String × α) :=
  match m with
  | [] => [(k, v)]
  | (k0, v0) :: rest => if k0 = k then (k, v) :: rest else (k0, v0) :: insertMap rest k v

abbrev AccountMap := List (String × Account)
abbrev TxMap := List (String × Transaction)

/-- AccountRepositoryImpl.FindByID. -/
def accountFindByID (m : AccountMap) (id : String) : Except String Account :=
  match findMap m id with
  | none => Except.error "account not found"
  | some a => Except.ok a

/-- AccountRepositoryImpl.FindByEmail: first stored account whose Email
field matches. -/
def accountFindByEmail (m : AccountMap) (email : String) : Except String Account :=
  match m.find? (fun p => p.2.Email = email) with
  | none => Except.error "account not found"
  | some p => Except.ok p.2

/-- AccountRepositoryImpl.Save: upsert keyed by account.ID, rejecting an
empty id. -/
def accountSave (m : AccountMap) (account : Account) : Except String AccountMap :=
  if account.ID = "" then Except.error "account ID is required"
  else Except.ok (insertMap m account.ID account)

/-- AccountRepositoryImpl.GetBalance. -/
def accountGetBalance (m : AccountMap) (id : String) : Except String ℚ :=
  match findMap m id with
  | none => Except.error "account not found"
  | some a => Except.ok a.GetBalance

/-- TransactionRepositoryImpl.FindByID. -/
def txFindByID (m : TxMap) (id : String) : Except String Transaction :=
  match findMap m id with
  | none => Except.error "transaction not found"
  | some tx => Except.ok tx

/-- TransactionRepositoryImpl.FindByAccountID: iterates the map and keeps
the transactions whose AccountID field equals the argument.  Source and
target ids are not consulted, and Go map iteration fixes no order. -/
def txFindByAccountID (m : TxMap) (accountID : String) : Except String (List Transaction) :=
  Except.ok ((m.map Prod.snd).filter (fun tx => decide (tx.AccountID = accountID)))

/-- TransactionRepositoryImpl.Save: upsert keyed by tx.ID, rejecting an
empty id. -/
def txSave (m : TxMap) (tx : Transaction) : Except String TxMap :=
  if tx.ID = "" then Except.error "transaction ID is required"
  else Except.ok (insertMap m tx.ID tx)

/-- TransactionRepositoryImpl.GetPendingTransactions. -/
def txGetPendingTransactions (m : TxMap) : Except String (List Transaction) :=
  Except.ok ((m.map Prod.snd).filter Transaction.IsPending)

/-- The two in-memory stores the services operate on. -/
structure ServiceState where
  accounts : AccountMap
  transactions : TxMap
deriving DecidableEq

/-- services.generateTransactionID: a constant ("Simplified for demo"). -/
def generateTransactionID : String :=
  "tx_" ++ "12345"

/-- auth/session.go generateAccountID: a constant ("Simplified for demo"). -/
def generateAccountID : String :=
  "acc_" ++ "12345"

/-- AccountService.CreateAccount: rejects a duplicate email, otherwise
builds a fresh Active account with a generated id and saves it. -/
def createAccount (now : Time) (accounts : AccountMap) (ownerID email : String) (accountType : AccountType) :
    Except String Account × AccountMap :=
  match accountFindByEmail accounts email with
  | Except.ok _ => (Except.error "account with email already exists", accounts)
  | Except.error _ =>
    let account := NewAccount now generateAccountID ownerID email accountType
    match accountSave accounts account with
    | Except.error e => (Except.error e, accounts)
    | Except.ok accs => (Except.ok account, accs)

/-
On pointer aliasing: the Go stores hold *pointers*; FindByID returns the
pointer stored at the lookup key, so a later entity-method mutation
(UpdateBalance, Complete) is visible in the store at that key at once,
before and independently of any Save call.  The service models below make
each such in-place mutation explicit as an insertMap at the key the object
was found under, and then perform the Save exactly where the source does.
-/

/-- TransactionService.CreateDeposit: positive-amount check, account
lookup, active check, pending transaction, balance update, tx save,
account save, Complete. -/
def createDeposit (now : Time) (st : ServiceState) (accountID : String) (amount : Money) :
    Except String Transaction × ServiceState :=
  if amount.IsPositive = false then
    (Except.error "deposit amount must be positive", st)
  else
    match accountFindByID st.accounts accountID with
    | Except.error e => (Except.error e, st)
    | Except.ok account =>
      if account.IsActive = false then
        (Except.error "account is not active", st)
      else
        let tx := NewTransaction now generateTransactionID accountID TransactionType.deposit amount.Amount
        let newBalance := account.GetBalance + amount.Amount
        let account2 := account.UpdateBalance now newBalance
        let accs1 := insertMap st.accounts accountID account2
        match txSave st.transactions tx with
        | Except.error e => (Except.error e, { st with accounts := accs1 })
        | Except.ok txs1 =>
          match accountSave accs1 account2 with
          | Except.error e => (Except.error e, { accounts := accs1, transactions := txs1 })
          | Except.ok accs2 =>
            let tx2 := tx.Complete now
            let txs2 := insertMap txs1 tx.ID tx2
            (Except.ok tx2, { accounts := accs2, transactions := txs2 })

/-- TransactionService.CreateWithdrawal: positive-amount check, account
lookup, strict insufficiency check (`balance < amount`), balance update,
tx save, account save, Complete.  The source has no active-status check
here. -/
def createWithdrawal (now : Time) (st : ServiceState) (accountID : String) (amount : Money) :
    Except String Transaction × ServiceState :=
  if amount.IsPositive = false then
    (Except.error "withdrawal amount must be positive", st)
  else
    match accountFindByID st.accounts accountID with
    | Except.error e => (Except.error e, st)
    | Except.ok account =>
      if account.GetBalance < amount.Amount then
        (Except.error "insufficient balance", st)
      else
        let tx := NewTransaction now generateTransactionID accountID TransactionType.withdrawal amount.Amount
        let newBalance := account.GetBalance - amount.Amount
        let account2 := account.UpdateBalance now newBalance
        let accs1 := insertMap st.accounts accountID account2
        match txSave st.transactions tx with
        | Except.error e => (Except.error e, { st with accounts := accs1 })
        | Except.ok txs1 =>
          match accountSave accs1 account2 with
          | Except.error e => (Except.error e, { accounts := accs1, transactions := txs1 })
          | Except.ok accs2 =>
            let tx2 := tx.Complete now
            let txs2 := insertMap txs1 tx.ID tx2
            (Except.ok tx2, { accounts := accs2, transactions := txs2 })

/-- TransactionService.CreateTransfer: self-transfer check, two lookups
(with renamed errors), joint active check, insufficiency check on the
source, debit, credit, tx save, source save, target save, Complete. -/
def createTransfer (now : Time) (st : ServiceState) (sourceAccountID targetAccountID : String) (amount : Money) :
    Except String Transaction × ServiceState :=
  if sourceAccountID = targetAccountID then
    (Except.error "cannot transfer to same account", st)
  else
    match accountFindByID st.accounts sourceAccountID with
    | Except.error _ => (Except.error "source account not found", st)
    | Except.ok sourceAccount =>
      match accountFindByID st.accounts targetAccountID with
      | Except.error _ => (Except.error "target account not found", st)
      | Except.ok targetAccount =>
        if sourceAccount.IsActive = false ∨ targetAccount.IsActive = false then
          (Except.error "both accounts must be active", st)
        else if sourceAccount.GetBalance < amount.Amount then
          (Except.error "insufficient balance", st)
        else
          let tx0 := NewTransaction now generateTransactionID sourceAccountID TransactionType.transfer amount.Amount
          let tx1 := { tx0 with SourceAccountID := sourceAccountID, TargetAccountID := targetAccountID }
          let source2 := sourceAccount.UpdateBalance now (sourceAccount.GetBalance - amount.Amount)
          let accs1 := insertMap st.accounts sourceAccountID source2
          let target2 := targetAccount.UpdateBalance now (targetAccount.GetBalance + amount.Amount)
          let accs2 := insertMap accs1 targetAccountID target2
          match txSave st.transactions tx1 with
          | Except.error e => (Except.error e, { st with accounts := accs2 })
          | Except.ok txs1 =>
            match accountSave accs2 source2 with
            | Except.error e => (Except.error e, { accounts := accs2, transactions := txs1 })
            | Except.ok accs3 =>
              match accountSave accs3 target2 with
              | Except.error e => (Except.error e, { accounts := accs3, transactions := txs1 })
              | Except.ok accs4 =>
                let tx2 := tx1.Complete now
                let txs2 := insertMap txs1 tx1.ID tx2
                (Except.ok tx2, { accounts := accs4, transactions := txs2 })

/-- One iteration of the ProcessPendingTransactions loop: for a
still-pending transaction, Complete it and save; were the save to fail
(only possible for an empty id) the code marks the same object Failed and
saves again.  The in-place Complete is visible in the store at the
transaction's key (pointer aliasing; for store states the repository can
produce, the key is the transaction's id). -/
def processPendingStep (now : Time) (m : TxMap) (tx : Transaction) : TxMap :=
  if tx.IsPending then
    let tx2 := Transaction.Complete now tx
    let m2 := insertMap m tx2.ID tx2
    if tx2.ID = "" then
      let tx3 := Transaction.Fail now tx2
      insertMap m2 tx3.ID tx3
    else m2
  else m

/-- The loop of ProcessPendingTransactions: the snapshot of pending
transactions folded through `processPendingStep`.  The returned error is
always nil (the in-memory GetPendingTransactions cannot fail). -/
def processPendingTransactions (now : Time) (txs : TxMap) : Except String Unit × TxMap :=
  let pending := (txs.map Prod.snd).filter Transaction.IsPending
  (Except.ok (), pending.foldl (processPendingStep now) txs)

/-- CreateTransfer run against repositories satisfying only the
AccountRepository/TransactionRepository *interfaces*, whose Save calls
return an error chosen by the backend: `txSaveOk`, `srcSaveOk`,
`tgtSaveOk` give the outcome of the three Save calls in program order.
Such a backend returns copies from FindByID, so only a successful Save is
visible to later readers; the control flow is exactly that of
CreateTransfer, each `if err != nil return nil, err` included. -/
def createTransferFallible (now : Time) (st : ServiceState) (sourceAccountID targetAccountID : String)
    (amount : Money) (txSaveOk srcSaveOk tgtSaveOk : Bool) :
    Except String Transaction × ServiceState :=
  if sourceAccountID = targetAccountID then
    (Except.error "cannot transfer to same account", st)
  else
    match accountFindByID st.accounts sourceAccountID with
    | Except.error _ => (Except.error "source account not found", st)
    | Except.ok sourceAccount =>
      match accountFindByID st.accounts targetAccountID with
      | Except.error _ => (Except.error "target account not found", st)
      | Except.ok targetAccount =>
        if sourceAccount.IsActive = false ∨ targetAccount.IsActive = false then
          (Except.error "both accounts must be active", st)
        else if sourceAccount.GetBalance < amount.Amount then
          (Except.error "insufficient balance", st)
        else
          let tx0 := NewTransaction now generateTransactionID sourceAccountID TransactionType.transfer amount.Amount
          let tx1 := { tx0 with SourceAccountID := sourceAccountID, TargetAccountID := targetAccountID }
          let source2 := sourceAccount.UpdateBalance now (sourceAccount.GetBalance - amount.Amount)
          let target2 := targetAccount.UpdateBalance now (targetAccount.GetBalance + amount.Amount)
          if txSaveOk = false then
            (Except.error "transaction save failed", st)
          else
            let txs1 := insertMap st.transactions tx1.ID tx1
            if srcSaveOk = false then
              (Except.error "account save failed", { st with transactions := txs1 })
            else
              let accs1 := insertMap st.accounts source2.ID source2
              if tgtSaveOk = false then
                (Except.error "account save failed", { accounts := accs1, transactions := txs1 })
              else
                let accs2 := insertMap accs1 target2.ID target2
                let tx2 := tx1.Complete now
                (Except.ok tx2, { accounts := accs2, transactions := txs1 })

/-! ## Map lemmas -/

theorem findMap_insertMap_self {α : Type} (m : List (String × α)) (k : String) (v : α) :
    findMap (insertMap m k v) k = some v := by
  induction m with
  | nil => simp [insertMap, findMap]
  | cons hd tl ih =>
    obtain ⟨k0, v0⟩ := hd
    by_cases h : k0 = k
    · simp [insertMap, findMap, h]
    · simp [insertMap, findMap, h, ih]

theorem findMap_insertMap_ne {α : Type} (m : List (String × α)) (k k' : String) (v : α)
    (h : k' ≠ k) : findMap (insertMap m k v) k' = findMap m k' := by
  induction m with
  | nil => simp [insertMap, findMap, Ne.symm h]
  | cons hd tl ih =>
    obtain ⟨k0, v0⟩ := hd
    by_cases hk : k0 = k
    · subst hk
      simp only [insertMap, if_pos rfl, findMap]
      rw [if_neg (Ne.symm h), if_neg (Ne.symm h)]
    · simp only [insertMap, if_neg hk, findMap]
      by_cases hk' : k0 = k'
      · rw [if_pos hk', if_pos hk']
      · rw [if_neg hk', if_neg hk', ih]

/-- The generated transaction id is the constant "tx_12345". -/
theorem generateTransactionID_eq : generateTransactionID = "tx_12345" := by
  decide

/-- The generated account id is the constant "acc_12345". -/
theorem generateAccountID_eq : generateAccountID = "acc_12345" := by
  decide

/-- C1: for a transfer between existing, distinct, active accounts with
sufficient source balance, CreateTransfer succeeds, the returned
transaction has type Transfer and status Completed, and the sum of the two
stored balances is preserved.  The id hypotheses (stored account's ID
equals its key, keys nonempty) hold of every store the repository's Save
can build. -/
theorem createTransfer_conserves_money
    (now : Time) (st : ServiceState) (srcID tgtID : String) (m : Money) (src tgt : Account)
    (hsrc : findMap st.accounts srcID = some src)
    (htgt : findMap st.accounts tgtID = some tgt)
    (hne : srcID ≠ tgtID)
    (hsid : src.ID = srcID) (htid : tgt.ID = tgtID)
    (hs0 : srcID ≠ "") (ht0 : tgtID ≠ "")
    (hact : src.IsActive = true) (hact2 : tgt.IsActive = true)
    (hbal : m.Amount ≤ src.GetBalance) :
    ∃ tx st2,
      createTransfer now st srcID tgtID m = (Except.ok tx, st2) ∧
      tx.TxType = TransactionType.transfer ∧
      tx.Status = TransactionStatus.completed ∧
      ∃ src2 tgt2,
        findMap st2.accounts srcID = some src2 ∧
        findMap st2.accounts tgtID = some tgt2 ∧
        src2.Balance + tgt2.Balance = src.Balance + tgt.Balance := by
  have hfind1 : accountFindByID st.accounts srcID = Except.ok src := by
    unfold accountFindByID
    rw [hsrc]
  have hfind2 : accountFindByID st.accounts tgtID = Except.ok tgt := by
    unfold accountFindByID
    rw [htgt]
  have hc0 : (srcID = tgtID) = False := eq_false hne
  have hc1 : (src.IsActive = false ∨ tgt.IsActive = false) = False := by
    simp [hact, hact2]
  have hc2 : (src.Balance < m.Amount) = False := eq_false (not_lt.mpr hbal)
  have hc3 : (generateTransactionID = "") = False := by decide
  have hc4 : (srcID = "") = False := eq_false hs0
  have hc5 : (tgtID = "") = False := eq_false ht0
  simp only [createTransfer, hfind1, hfind2, txSave, accountSave, NewTransaction,
    Account.UpdateBalance, Account.GetBalance, Transaction.Complete, hsid, htid,
    hc0, hc1, hc2, hc3, hc4, hc5, if_false]
  refine ⟨_, _, rfl, rfl, rfl,
    { src with ID := srcID, Balance := src.Balance - m.Amount, UpdatedAt := now },
    { tgt with ID := tgtID, Balance := tgt.Balance + m.Amount, UpdatedAt := now }, ?_, ?_, ?_⟩
  · rw [findMap_insertMap_ne _ _ _ _ hne, findMap_insertMap_self]
  · rw [findMap_insertMap_self]
  · show src.Balance - m.Amount + (tgt.Balance + m.Amount) = src.Balance + tgt.Balance
    ring

/-- A concrete active account with balance 100, used by witnesses. -/
def accA : Account :=
  { ID := "A", OwnerID := "o1", Email := "e1", AccountType := AccountType.personal,
    Status := AccountStatus.active, Balance := 100, CreatedAt := 0, UpdatedAt := 0 }

/-- A concrete active account with balance 50, used by witnesses. -/
def accB : Account :=
  { ID := "B", OwnerID := "o2", Email := "e2", AccountType := AccountType.personal,
    Status := AccountStatus.active, Balance := 50, CreatedAt := 0, UpdatedAt := 0 }

/-- A concrete two-account store with no transactions, used by witnesses. -/
def stAB : ServiceState :=
  { accounts := [("A", accA), ("B", accB)], transactions := [] }

/-- Witness for C1: transferring 30 USD from account A (balance 100) to
account B (balance 50) succeeds, returns a Completed Transfer, and the two
stored balances still sum to 150. -/
theorem createTransfer_conserves_money_witness :
    ∃ tx st2,
      createTransfer 5 stAB "A" "B" (NewMoney 30 "USD") = (Except.ok tx, st2) ∧
      tx.TxType = TransactionType.transfer ∧
      tx.Status = TransactionStatus.completed ∧
      ∃ src2 tgt2,
        findMap st2.accounts "A" = some src2 ∧
        findMap st2.accounts "B" = some tgt2 ∧
        src2.Balance + tgt2.Balance = accA.Balance + accB.Balance :=
  createTransfer_conserves_money 5 stAB "A" "B" (NewMoney 30 "USD") accA accB
    (by decide) (by decide) (by decide) (by decide) (by decide) (by decide) (by decide)
    (by decide) (by decide) (by decide)

/-- C2: depositing a positive amount into an existing active account
succeeds, the returned transaction has type Deposit and status Completed,
and the stored balance becomes the old balance plus the amount. -/
theorem createDeposit_adds_amount
    (now : Time) (st : ServiceState) (id : String) (m : Money) (acc : Account)
    (hfind : findMap st.accounts id = some acc)
    (hid : acc.ID = id) (h0 : id ≠ "")
    (hact : acc.IsActive = true)
    (hpos : m.IsPositive = true) :
    ∃ tx st2,
      createDeposit now st id m = (Except.ok tx, st2) ∧
      tx.TxType = TransactionType.deposit ∧
      tx.Status = TransactionStatus.completed ∧
      ∃ acc2, findMap st2.accounts id = some acc2 ∧ acc2.Balance = acc.Balance + m.Amount := by
  have hfind1 : accountFindByID st.accounts id = Except.ok acc := by
    unfold accountFindByID
    rw [hfind]
  have hc1 : (m.IsPositive = false) = False := by
    simp [hpos]
  have hc2 : (acc.IsActive = false) = False := by
    simp [hact]
  have hc3 : (generateTransactionID = "") = False := by decide
  have hc4 : (id = "") = False := eq_false h0
  simp only [createDeposit, hfind1, txSave, accountSave, NewTransaction,
    Account.UpdateBalance, Account.GetBalance, Transaction.Complete, hid,
    hc1, hc2, hc3, hc4, if_false]
  exact ⟨_, _, rfl, rfl, rfl,
    { acc with ID := id, Balance := acc.Balance + m.Amount, UpdatedAt := now },
    findMap_insertMap_self _ _ _, rfl⟩

/-- Witness for C2: depositing 25 USD into account A (balance 100) yields
a Completed Deposit and a stored balance of 125. -/
theorem createDeposit_adds_amount_witness :
    ∃ tx st2,
      createDeposit 5 stAB "A" (NewMoney 25 "USD") = (Except.ok tx, st2) ∧
      tx.TxType = TransactionType.deposit ∧
      tx.Status = TransactionStatus.completed ∧
      ∃ acc2, findMap st2.accounts "A" = some acc2 ∧
        acc2.Balance = accA.Balance + (NewMoney 25 "USD").Amount :=
  createDeposit_adds_amount 5 stAB "A" (NewMoney 25 "USD") accA
    (by decide) (by decide) (by decide) (by decide) (by decide)

/-- C10: withdrawing exactly the (positive) current balance is not
rejected as insufficient: the insufficiency check is strictly
`balance < amount`, so the call succeeds and the stored balance becomes
zero. -/
theorem createWithdrawal_exact_balance_zeroes
    (now : Time) (st : ServiceState) (id : String) (m : Money) (acc : Account)
    (hfind : findMap st.accounts id = some acc)
    (hid : acc.ID = id) (h0 : id ≠ "")
    (hamt : m.Amount = acc.Balance)
    (hpos : 0 < acc.Balance) :
    ∃ tx st2,
      createWithdrawal now st id m = (Except.ok tx, st2) ∧
      tx.TxType = TransactionType.withdrawal ∧
      tx.Status = TransactionStatus.completed ∧
      ∃ acc2, findMap st2.accounts id = some acc2 ∧ acc2.Balance = 0 := by
  have hfind1 : accountFindByID st.accounts id = Except.ok acc := by
    unfold accountFindByID
    rw [hfind]
  have hposm : 0 < m.Amount := by
    rw [hamt]
    exact hpos
  have hc1 : (m.IsPositive = false) = False := by
    simp [Money.IsPositive, hposm]
  have hc2 : (acc.Balance < m.Amount) = False := by
    rw [hamt]
    simp
  have hc3 : (generateTransactionID = "") = False := by decide
  have hc4 : (id = "") = False := eq_false h0
  simp only [createWithdrawal, hfind1, txSave, accountSave, NewTransaction,
    Account.UpdateBalance, Account.GetBalance, Transaction.Complete, hid,
    hc1, hc2, hc3, hc4, if_false]
  refine ⟨_, _, rfl, rfl, rfl,
    { acc with ID := id, Balance := acc.Balance - m.Amount, UpdatedAt := now },
    findMap_insertMap_self _ _ _, ?_⟩
  show acc.Balance - m.Amount = 0
  rw [hamt, sub_self]

/-- Witness for C10: withdrawing 100 USD from account A (balance exactly
100) succeeds and leaves the stored balance at zero. -/
theorem createWithdrawal_exact_balance_zeroes_witness :
    ∃ tx st2,
      createWithdrawal 5 stAB "A" (NewMoney 100 "USD") = (Except.ok tx, st2) ∧
      tx.TxType = TransactionType.withdrawal ∧
      tx.Status = TransactionStatus.completed ∧
      ∃ acc2, findMap st2.accounts "A" = some acc2 ∧ acc2.Balance = 0 :=
  createWithdrawal_exact_balance_zeroes 5 stAB "A" (NewMoney 100 "USD") accA
    (by decide) (by decide) (by decide) (by decide) (by decide)

/-- A concrete active account holding a negative balance, as
AccountService.UpdateAccountBalance (an unconditional overwrite) can
produce. -/
def accNeg : Account :=
  { ID := "N", OwnerID := "o3", Email := "e3", AccountType := AccountType.personal,
    Status := AccountStatus.active, Balance := -1, CreatedAt := 0, UpdatedAt := 0 }

/-- A store holding only the negative-balance account. -/
def stNeg : ServiceState :=
  { accounts := [("N", accNeg)], transactions := [] }

/-- C3 counterexample: on the stored account with balance -1, a
withdrawal request of amount 0 exceeds the balance (0 > -1), yet
CreateWithdrawal fails with the invalid-amount error, not the
insufficient-balance error, because the positivity check runs first. -/
theorem createWithdrawal_excess_wrong_error :
    (NewMoney 0 "USD").Amount > accNeg.Balance ∧
    createWithdrawal 5 stNeg "N" (NewMoney 0 "USD") =
      (Except.error "withdrawal amount must be positive", stNeg) ∧
    (createWithdrawal 5 stNeg "N" (NewMoney 0 "USD")).1 ≠
      Except.error "insufficient balance" := by
  decide

/-- C3 amended: for a *positive* requested amount exceeding the balance of
an existing account, CreateWithdrawal fails with the insufficient-balance
error and the entire service state (the account record included) is
unchanged. -/
theorem createWithdrawal_insufficient_unchanged
    (now : Time) (st : ServiceState) (id : String) (m : Money) (acc : Account)
    (hfind : findMap st.accounts id = some acc)
    (hpos : 0 < m.Amount)
    (hgt : acc.Balance < m.Amount) :
    createWithdrawal now st id m = (Except.error "insufficient balance", st) := by
  have hfind1 : accountFindByID st.accounts id = Except.ok acc := by
    unfold accountFindByID
    rw [hfind]
  have hc1 : (m.IsPositive = false) = False := by
    simp [Money.IsPositive, hpos]
  have hc2 : (acc.Balance < m.Amount) = True := eq_true hgt
  simp only [createWithdrawal, hfind1, Account.GetBalance, hc1, hc2, if_false, if_true]

/-- Witness for C3 amended: withdrawing 150 USD from account A (balance
100) fails with the insufficient-balance error and leaves the store
untouched. -/
theorem createWithdrawal_insufficient_unchanged_witness :
    createWithdrawal 5 stAB "A" (NewMoney 150 "USD") =
      (Except.error "insufficient balance", stAB) :=
  createWithdrawal_insufficient_unchanged 5 stAB "A" (NewMoney 150 "USD") accA
    (by decide) (by decide) (by decide)

/-! ## Infrastructure for the ProcessPendingTransactions claim -/

/-- Well-formed transaction store: every entry is keyed by its
transaction's (nonempty) id, and keys are unique — exactly the stores the
in-memory repository's Save can build. -/
def TxMapWF (m : TxMap) : Prop :=
  (∀ p ∈ m, (Prod.snd p : Transaction).ID = p.1 ∧ p.1 ≠ "") ∧ (m.map Prod.fst).Nodup

theorem findMap_of_mem_nodup {α : Type} (m : List (String × α)) (k : String) (v : α)
    (hmem : (k, v) ∈ m) (hnd : (m.map Prod.fst).Nodup) : findMap m k = some v := by
  induction m with
  | nil => cases hmem
  | cons hd tl ih =>
    rw [List.map_cons, List.nodup_cons] at hnd
    rcases List.mem_cons.mp hmem with heq | hmem2
    · rw [← heq]
      simp [findMap]
    · obtain ⟨k0, v0⟩ := hd
      by_cases hk : k0 = k
      · exfalso
        apply hnd.1
        have h2 : Prod.fst (k, v) ∈ tl.map Prod.fst := List.mem_map_of_mem Prod.fst hmem2
        rw [hk]
        exact h2
      · simp only [findMap, if_neg hk]
        exact ih hmem2 hnd.2

theorem findMap_processPendingStep_ne (now : Time) (m : TxMap) (tx : Transaction)
    (k : String) (h : tx.ID ≠ k) :
    findMap (processPendingStep now m tx) k = findMap m k := by
  unfold processPendingStep
  by_cases hp : tx.IsPending
  · rw [if_pos hp]
    simp only [Transaction.Complete, Transaction.Fail]
    by_cases hid : tx.ID = ""
    · rw [if_pos hid, findMap_insertMap_ne _ _ _ _ (Ne.symm h),
        findMap_insertMap_ne _ _ _ _ (Ne.symm h)]
    · rw [if_neg hid, findMap_insertMap_ne _ _ _ _ (Ne.symm h)]
  · rw [if_neg hp]

theorem findMap_foldl_processPendingStep (now : Time) (k : String) (l : List Transaction)
    (m : TxMap) (h : ∀ tx0 ∈ l, tx0.ID ≠ k) :
    findMap (l.foldl (processPendingStep now) m) k = findMap m k := by
  induction l generalizing m with
  | nil => rfl
  | cons hd tl ih =>
    rw [List.foldl_cons, ih _ (fun tx0 htx0 => h tx0 (List.mem_cons_of_mem _ htx0)),
      findMap_processPendingStep_ne _ _ _ _ (h hd (List.mem_cons_self _ _))]

/-- C4 counterexample: after a transaction reaches the terminal status
Completed, a Fail call moves it to Failed, and a second Complete call
re-stamps processedAt — the entity methods are unconditional. -/
theorem fail_overwrites_completed :
    ((NewTransaction 0 "t1" "A" TransactionType.deposit 5).Complete 1).Status =
      TransactionStatus.completed ∧
    (((NewTransaction 0 "t1" "A" TransactionType.deposit 5).Complete 1).Fail 2).Status =
      TransactionStatus.failed ∧
    (((NewTransaction 0 "t1" "A" TransactionType.deposit 5).Complete 1).Complete 2).ProcessedAt ≠
      ((NewTransaction 0 "t1" "A" TransactionType.deposit 5).Complete 1).ProcessedAt := by
  decide

/-- C4 amended: Complete and Fail overwrite status and processedAt
unconditionally, so a direct call can move a transaction out of a terminal
state and re-stamp processedAt; ProcessPendingTransactions, however, only
touches transactions that are still Pending: in a well-formed store, every
transaction in a terminal state is returned unchanged (status and
processedAt included). -/
theorem processPending_preserves_terminal
    (now : Time) (txs : TxMap) (k : String) (tx : Transaction)
    (hwf : TxMapWF txs)
    (hfind : findMap txs k = some tx)
    (hterm : tx.IsPending = false) :
    findMap (processPendingTransactions now txs).2 k = some tx := by
  obtain ⟨hids, hnd⟩ := hwf
  show findMap (((txs.map Prod.snd).filter Transaction.IsPending).foldl
    (processPendingStep now) txs) k = some tx
  rw [findMap_foldl_processPendingStep, hfind]
  intro tx0 htx0
  have hmem := (List.mem_filter.mp htx0).1
  have hpend := (List.mem_filter.mp htx0).2
  obtain ⟨p, hp, hp2⟩ := List.mem_map.mp hmem
  intro hk
  have hkey := (hids p hp).1
  have hpk : p = (k, tx0) := by
    obtain ⟨k1, v1⟩ := p
    simp only at hp2 hkey
    rw [hp2] at hkey
    rw [hp2, ← hkey, hk]
  rw [hpk] at hp
  have := findMap_of_mem_nodup txs k tx0 hp hnd
  rw [hfind] at this
  have htx : tx0 = tx := by
    injection this.symm
  rw [htx] at hpend
  rw [hpend] at hterm
  cases hterm

/-- A concrete transaction already in the terminal Completed status. -/
def txDone : Transaction :=
  { ID := "t9", AccountID := "A", TxType := TransactionType.deposit,
    Status := TransactionStatus.completed, Amount := 5, Description := "",
    SourceAccountID := "", TargetAccountID := "", CreatedAt := 0, ProcessedAt := some 1 }

/-- Witness for C4 amended: a store holding one Completed transaction is
returned unchanged by ProcessPendingTransactions. -/
theorem processPending_preserves_terminal_witness :
    findMap (processPendingTransactions 7 [("t9", txDone)]).2 "t9" = some txDone :=
  processPending_preserves_terminal 7 [("t9", txDone)] "t9" txDone
    (show TxMapWF [("t9", txDone)] from ⟨by decide, by decide⟩) (by decide) (by decide)

/-- A concrete Completed transfer from account A to account B, recorded
with AccountID = SourceAccountID = "A" as CreateTransfer records it. -/
def txTransferAB : Transaction :=
  { ID := "tx_12345", AccountID := "A", TxType := TransactionType.transfer,
    Status := TransactionStatus.completed, Amount := 30, Description := "",
    SourceAccountID := "A", TargetAccountID := "B", CreatedAt := 0, ProcessedAt := some 1 }

/-- C5 counterexample: a stored transfer whose TargetAccountID is "B" is
not returned by FindByAccountID "B" — the implementation matches only the
AccountID field. -/
theorem findByAccountID_misses_target :
    txTransferAB.TargetAccountID = "B" ∧
    txFindByAccountID [("tx_12345", txTransferAB)] "B" = Except.ok [] := by
  decide

/-- C5 amended: FindByAccountID returns exactly the stored transactions
whose AccountID field equals the given id (a transfer is found under its
source id, to which AccountID is set, but not under its target id), in Go
map iteration order, which guarantees no ordering. -/
theorem findByAccountID_filters_by_accountID
    (m : TxMap) (accountID : String) (l : List Transaction)
    (h : txFindByAccountID m accountID = Except.ok l) (tx : Transaction) :
    tx ∈ l ↔ tx ∈ m.map Prod.snd ∧ tx.AccountID = accountID := by
  unfold txFindByAccountID at h
  have hl : (m.map Prod.snd).filter (fun tx0 => decide (tx0.AccountID = accountID)) = l := by
    injection h
  rw [← hl, List.mem_filter]
  simp

/-- Witness for C5 amended: in a one-transaction store, the lookup under
"A" returns the transfer, and membership matches the AccountID filter. -/
theorem findByAccountID_filters_by_accountID_witness :
    txTransferAB ∈ [txTransferAB] ↔
      txTransferAB ∈ ([("tx_12345", txTransferAB)] : TxMap).map Prod.snd ∧
      txTransferAB.AccountID = "A" :=
  findByAccountID_filters_by_accountID [("tx_12345", txTransferAB)] "A" [txTransferAB]
    (by decide) txTransferAB

/-- C6: id generation does not guarantee uniqueness — two successive
successful CreateAccount calls (distinct owners and emails) both return an
account with the constant id "acc_12345"; the generated transaction id is
likewise the constant "tx_12345". -/
theorem createAccount_duplicate_ids :
    (createAccount 0 [] "o1" "e1" AccountType.personal).1 =
      Except.ok (NewAccount 0 "acc_12345" "o1" "e1" AccountType.personal) ∧
    (createAccount 1 (createAccount 0 [] "o1" "e1" AccountType.personal).2 "o2" "e2"
        AccountType.personal).1 =
      Except.ok (NewAccount 1 "acc_12345" "o2" "e2" AccountType.personal) ∧
    (NewAccount 0 "acc_12345" "o1" "e1" AccountType.personal).ID =
      (NewAccount 1 "acc_12345" "o2" "e2" AccountType.personal).ID := by
  decide

/-- C7: Money.Add and Money.Subtract fail with the currency-mismatch
error exactly when the currencies differ; with equal currencies they
return the sum (resp. difference) under the unchanged currency.  The Go
methods take value receivers and build a fresh Money, so neither operand
is modified. -/
theorem money_arithmetic_currency_checked (m1 m2 : Money) :
    (m1.Currency ≠ m2.Currency →
      m1.Add m2 = Except.error "currency mismatch" ∧
      m1.Subtract m2 = Except.error "currency mismatch") ∧
    (m1.Currency = m2.Currency →
      m1.Add m2 = Except.ok { Amount := m1.Amount + m2.Amount, Currency := m1.Currency } ∧
      m1.Subtract m2 = Except.ok { Amount := m1.Amount - m2.Amount, Currency := m1.Currency }) := by
  constructor
  · intro h
    exact ⟨by simp [Money.Add, h], by simp [Money.Subtract, h]⟩
  · intro h
    refine ⟨?_, ?_⟩
    · unfold Money.Add
      rw [if_neg (by simp [h])]
    · unfold Money.Subtract
      rw [if_neg (by simp [h])]

/-- Witness for C7: 1 USD + 2 EUR is a currency mismatch; 1 USD + 2 USD
and 1 USD - 2 USD succeed with currency USD. -/
theorem money_arithmetic_currency_checked_witness :
    (NewMoney 1 "USD").Add (NewMoney 2 "EUR") = Except.error "currency mismatch" ∧
    (NewMoney 1 "USD").Add (NewMoney 2 "USD") =
      Except.ok { Amount := (NewMoney 1 "USD").Amount + (NewMoney 2 "USD").Amount,
                  Currency := (NewMoney 1 "USD").Currency } ∧
    (NewMoney 1 "USD").Subtract (NewMoney 2 "USD") =
      Except.ok { Amount := (NewMoney 1 "USD").Amount - (NewMoney 2 "USD").Amount,
                  Currency := (NewMoney 1 "USD").Currency } :=
  ⟨((money_arithmetic_currency_checked (NewMoney 1 "USD") (NewMoney 2 "EUR")).1 (by decide)).1,
   ((money_arithmetic_currency_checked (NewMoney 1 "USD") (NewMoney 2 "USD")).2 (by decide)).1,
   ((money_arithmetic_currency_checked (NewMoney 1 "USD") (NewMoney 2 "USD")).2 (by decide)).2⟩

/-- C8: Activate is an unconditional status overwrite — called on a
Closed account it moves the status to Active, so closure is not terminal
in the code, contradicting the spec. -/
theorem activate_reactivates_closed (now : Time) (a : Account)
    (h : a.Status = AccountStatus.closed) :
    (a.Activate now).Status = AccountStatus.active ∧
    (a.Activate now).Status ≠ AccountStatus.closed := by
  exact ⟨rfl, by simp [Account.Activate]⟩

/-- A concrete Closed account. -/
def accClosed : Account :=
  { ID := "C", OwnerID := "o4", Email := "e4", AccountType := AccountType.personal,
    Status := AccountStatus.closed, Balance := 0, CreatedAt := 0, UpdatedAt := 0 }

/-- Witness for C8: activating the concrete Closed account yields status
Active. -/
theorem activate_reactivates_closed_witness :
    (accClosed.Activate 3).Status = AccountStatus.active ∧
    (accClosed.Activate 3).Status ≠ AccountStatus.closed :=
  activate_reactivates_closed 3 accClosed (by decide)

/-- C9: with repositories satisfying the store interfaces in which the
third Save (the target account) fails, CreateTransfer returns an error
having already persisted the source debit: a subsequent balance read sees
source 70 and target 50 — partial application of the transfer is
observable, so the three persistence steps are not one atomic unit. -/
theorem transfer_partial_state_on_save_failure :
    (createTransferFallible 5 stAB "A" "B" (NewMoney 30 "USD") true true false).1 =
      Except.error "account save failed" ∧
    accountGetBalance
      (createTransferFallible 5 stAB "A" "B" (NewMoney 30 "USD") true true false).2.accounts "A" =
      Except.ok 70 ∧
    accountGetBalance
      (createTransferFallible 5 stAB "A" "B" (NewMoney 30 "USD") true true false).2.accounts "B" =
      Except.ok 50 := by
  refine ⟨by decide, ?_, by decide⟩
  norm_num [createTransferFallible, stAB, accA, accB, NewMoney, Money.IsPositive,
    Account.IsActive, Account.GetBalance, Account.UpdateBalance, NewTransaction,
    generateTransactionID, insertMap, findMap, accountFindByID, accountGetBalance,
    Transaction.Complete]

end Bank
